import Mathlib

/-!
Verification of the please_pex bootstrap and wheel-resolution code.

This file gives a shallow embedding of the two source files

  src/third_party/python/find_wheels.py
  src/tools/please_pex/pex_run.py

and proves or refutes the frozen claims about them.  Pure functions become
Lean functions; the stateful bootstrap becomes an explicit state transformer
that also records a trace of observable events; fallible operations return
Except.  The regular-expression search performed by find_wheels is embedded
as a backtracking matcher specialised to the exact pattern the source
compiles, with the same priority order as the CPython engine (leftmost
match, greedy single-character repetitions tried longest first,
alternatives tried left to right, scanning resumes after each match).
-/

namespace FindWheels

/-- The source constant PIP_ARCHITECTURES: the accepted interpreter ABI tags. -/
def PIP_ARCHITECTURES : List String :=
  ["cp27-cp27m", "cp34-cp34m", "cp35-cp35m", "cp36-cp36m"]

/-- The source dict PIP_PLATFORMS, accessed with dict.get whose default is the
key itself: darwin maps to macosx, linux to manylinux1, anything else passes
through unchanged. -/
def PIP_PLATFORMS (osId : String) : String :=
  if osId = "darwin" then "macosx"
  else if osId = "linux" then "manylinux1"
  else osId

/-- The source constant PIP_URL_BASE. -/
def PIP_URL_BASE : String := "https://pypi.python.org/simple/"

/-- Whether a string begins with a slash, as os.path.join tests. -/
def beginsWithSlash (s : String) : Bool :=
  match s.data with
  | [] => false
  | c :: _ => c = '/'

/-- Whether a string ends with a slash, as os.path.join tests. -/
def endsWithSlash (s : String) : Bool :=
  match s.data.getLast? with
  | some c => c = '/'
  | none => false

/-- One step of posixpath.join: an absolute second component replaces the
accumulated path, otherwise it is appended, inserting a slash separator
unless the accumulated path is empty or already ends with a slash. -/
def joinTwo (a b : String) : String :=
  if beginsWithSlash b then b
  else if a = "" || endsWithSlash a then a ++ b
  else a ++ "/" ++ b

/-- os.path.join with a leading component and further components. -/
def os_path_join (a : String) (ps : List String) : String :=
  ps.foldl joinTwo a

/-- str.partition on the separator ==: locate the first occurrence and return
the text before and after it, or none when the separator is absent. -/
def splitEqEq : List Char → Option (List Char × List Char)
  | [] => none
  | '=' :: '=' :: rest => some ([], rest)
  | c :: rest =>
    match splitEqEq rest with
    | some (a, b) => some (c :: a, b)
    | none => none

/-- The package-spec parse in find_wheels:
package_name, _, version = package_spec.partition of the separator ==.
A spec without the separator yields the whole string as the name and an
empty version. -/
def partition_eqeq (s : String) : String × String :=
  match splitEqEq s.data with
  | some (n, v) => (String.mk n, String.mk v)
  | none => (s, "")

/-! ### The backtracking matcher for the compiled pattern

The source compiles, with name, version, the joined ABI list and the
platform interpolated as literal text:

  lt a href eq quote, then the capture group
    one-or-more non-quote characters,
    the literal name dash version dash,
    one of the ABI tags, a dash, the platform,
    one-or-more non-quote characters,
    one of x86_64, amd64, intel,
    any single character, the literal whl,
  then a hash sign, zero-or-more non-newline characters, a closing quote.

The combinators below implement exactly this pattern in continuation
passing style with the CPython backtracking priorities. -/

/-- Match a literal character sequence, then continue. -/
def litM {α : Type} : List Char → (List Char → Option α) → List Char → Option α
  | [], k, s => k s
  | _ :: _, _, [] => none
  | c :: l, k, d :: s => if c = d then litM l k s else none

/-- Greedy zero-or-more repetition of a single-character predicate with
backtracking: longer consumptions are tried before shorter ones, matching
the engine priority of a greedy star. -/
def starM {α : Type} (p : Char → Bool) (k : List Char → Option α) : List Char → Option α
  | [] => k []
  | c :: s => if p c then (starM p k s) <|> k (c :: s) else k (c :: s)

/-- Greedy one-or-more repetition of a single-character predicate. -/
def plusM {α : Type} (p : Char → Bool) (k : List Char → Option α) : List Char → Option α
  | [] => none
  | c :: s => if p c then starM p k s else none

/-- Ordered alternation of literal alternatives, tried left to right. -/
def altM {α : Type} : List (List Char) → (List Char → Option α) → List Char → Option α
  | [], _, _ => none
  | l :: ls, k, s => (litM l k s) <|> altM ls k s

/-- The dot metacharacter: any single character other than a newline. -/
def anyM {α : Type} (k : List Char → Option α) : List Char → Option α
  | [] => none
  | c :: s => if c = '\n' then none else k s

/-- Predicate for the negated character class excluding the double quote. -/
def notQuote (c : Char) : Bool := c != '"'

/-- Predicate for the dot metacharacter. -/
def notNewline (c : Char) : Bool := c != '\n'

/-- The part of the pattern after the capture group: a hash sign, a greedy
run of non-newline characters, and a closing quote.  On success it returns
the capture passed in together with the text after the whole match. -/
def matchTail (cap : List Char) : List Char → Option (List Char × List Char)
  | [] => none
  | c :: s =>
    if c = '#' then
      starM notNewline
        (fun r =>
          match r with
          | '"' :: rest => some (cap, rest)
          | _ => none) s
    else none

/-- The three architecture markers of the pattern, in source order. -/
def archAlts : List (List Char) := [String.data "x86_64", String.data "amd64", String.data "intel"]

/-- The ABI alternation of the pattern, built from PIP_ARCHITECTURES. -/
def abiAlts : List (List Char) := PIP_ARCHITECTURES.map String.data

/-- The capture group of the pattern, starting at the text right after the
opening quote of the href attribute.  nameVer is the literal name dash
version dash; plat is the canonical platform literal.  On success returns
the captured text and the remainder after the full match. -/
def matchGroup (nameVer plat : List Char) (g0 : List Char) : Option (List Char × List Char) :=
  plusM notQuote (fun s1 =>
    litM nameVer (fun s2 =>
      altM abiAlts (fun s3 =>
        litM ('-' :: plat) (fun s4 =>
          plusM notQuote (fun s5 =>
            altM archAlts (fun s6 =>
              anyM (fun s7 =>
                litM (String.data "whl") (fun s8 =>
                  matchTail (g0.take (g0.length - s8.length)) s8) s7) s6) s5) s4) s3) s2) s1) g0

/-- The fixed prefix of the pattern before the capture group. -/
def hrefPrefix : List Char := String.data "<a href=\""

/-- Attempt a match of the whole pattern at the given position. -/
def matchAt (nameVer plat : List Char) (s : List Char) : Option (List Char × List Char) :=
  litM hrefPrefix (fun g0 => matchGroup nameVer plat g0) s

/-- The scan loop of re.findall: try the pattern at each position from the
left; on a match, record the capture group and resume after the match.
The fuel argument bounds the recursion and is always sufficient because
every match consumes at least the nonempty fixed prefix. -/
def findallAux (nameVer plat : List Char) : Nat → List Char → List (List Char)
  | 0, _ => []
  | fuel + 1, s =>
    match s with
    | [] => []
    | _ :: rest =>
      match matchAt nameVer plat s with
      | some (cap, afterMatch) => cap :: findallAux nameVer plat fuel afterMatch
      | none => findallAux nameVer plat fuel rest

/-- re.findall of the compiled pattern over the page text, returning the
capture group of every match in scan order. -/
def findall (nameVer plat : List Char) (text : List Char) : List (List Char) :=
  findallAux nameVer plat (text.length + 1) text

/-- The HTTP response as find_wheels observes it: a status code and the
page text. -/
structure Response where
  status : Nat
  text : String
deriving DecidableEq

/-- Errors surfaced by find_wheels: a transport failure raised by the GET
itself, or the HTTPError raised by raise_for_status. -/
inductive FetchError where
  | transport (msg : String)
  | httpStatus (code : Nat)
deriving DecidableEq

/-- requests Response.raise_for_status: raises HTTPError exactly for client
error statuses 400 to 499 and server error statuses 500 to 599. -/
def raise_for_status (r : Response) : Except FetchError Unit :=
  if 400 ≤ r.status ∧ r.status < 600 then
    Except.error (FetchError.httpStatus r.status)
  else Except.ok ()

/-- find_wheels: split the spec on the first ==, perform the GET (injected
here as its result), raise for an error status, then scan the page with
the compiled pattern and join each captured filename onto the index base
and the package name.  The generator is embedded as the list of all its
yields. -/
def find_wheels (osPlatform : String) (fetch : Except String Response)
    (package_spec : String) : Except FetchError (List String) :=
  let (package_name, version) := partition_eqeq package_spec
  match fetch with
  | Except.error m => Except.error (FetchError.transport m)
  | Except.ok response =>
    match raise_for_status response with
    | Except.error e => Except.error e
    | Except.ok _ =>
      let plat := PIP_PLATFORMS osPlatform
      let nameVer := String.data (package_name ++ "-" ++ version ++ "-")
      Except.ok ((findall nameVer (String.data plat) (String.data response.text)).map
        (fun m => os_path_join PIP_URL_BASE [package_name, String.mk m]))

end FindWheels

namespace PexRun

open FindWheels (os_path_join)

/-- Python exceptions as the bootstrap distinguishes them: the except clause
in run catches OSError and nothing else, so the embedding separates OSError
from every other exception. -/
inductive PyErr where
  | osError (msg : String)
  | otherError (msg : String)
deriving DecidableEq, BEq

/-- An entry of sys.meta_path: the ModuleDirImport hook constructed with the
module directory name, the SoImport hook, or a finder that was already
installed before run started. -/
inductive MetaHook where
  | moduleDirImport (dirname : String)
  | soImport
  | preexisting (finder : String)
deriving DecidableEq, BEq

/-- The interpreter state the bootstrap mutates: sys.path and sys.meta_path. -/
structure SysState where
  path : List String
  meta_path : List MetaHook
deriving DecidableEq

/-- What one call of interact(main) does: return an exit code or raise. -/
inductive Outcome where
  | ret (code : Int)
  | raise (e : PyErr)
deriving DecidableEq

/-- Observable events of one execution of run, in order.  An interact event
records sys.path and sys.meta_path at the moment the external entry point
is invoked. -/
inductive Event where
  | setupFuseOk
  | fuseWarning (e : PyErr)
  | explodeZip
  | interact (path : List String) (meta_path : List MetaHook)
deriving DecidableEq

/-- The externally determined inputs of run: the baked-in ZIP_SAFE flag and
MODULE_DIR string, the outcome of setup_fuse, and the outcome of the n-th
call of interact(main), counted from zero. -/
structure Env where
  zipSafe : Bool
  moduleDir : String
  fuseResult : Except PyErr Unit
  interactResults : Nat → Outcome

/-- add_module_dir_to_sys_path: when dirname is nonempty, rewrite sys.path to
its first entry, then the first entry joined with dirname, then the rest,
and insert ModuleDirImport(dirname) at the front of sys.meta_path; when
dirname is empty, do nothing.  Reading sys.path at index zero of an empty
list raises IndexError. -/
def add_module_dir_to_sys_path (dirname : String) (s : SysState) : Except PyErr SysState :=
  if dirname ≠ "" then
    match s.path with
    | [] => Except.error (PyErr.otherError "IndexError")
    | p0 :: rest =>
      Except.ok { path := p0 :: os_path_join p0 [dirname] :: rest,
                  meta_path := MetaHook.moduleDirImport dirname :: s.meta_path }
  else Except.ok s

/-- The first statement of run: sys.path becomes its first entry, then that
entry joined with the literal .bootstrap, then the remaining entries. -/
def bootstrap_path_adjust (s : SysState) : Except PyErr SysState :=
  match s.path with
  | [] => Except.error (PyErr.otherError "IndexError")
  | p0 :: rest =>
    Except.ok { s with path := p0 :: os_path_join p0 [".bootstrap"] :: rest }

/-- The body of the with explode_zip block in run: add the module directory
to sys.path, then call interact(main) as the n-th entry-point invocation
and return or propagate its outcome. -/
def explodedRun (env : Env) (s : SysState) (evs : List Event) (n : Nat) :
    List Event × Except PyErr Int :=
  let evs := evs ++ [Event.explodeZip]
  match add_module_dir_to_sys_path env.moduleDir s with
  | Except.error e => (evs, Except.error e)
  | Except.ok s2 =>
    let evs := evs ++ [Event.interact s2.path s2.meta_path]
    match env.interactResults n with
    | Outcome.ret v => (evs, Except.ok v)
    | Outcome.raise e => (evs, Except.error e)

/-- run, as the source writes it.  After the path adjustment: when ZIP_SAFE
is false, try setup_fuse followed by interact(main); the except clause
catches an OSError raised by either of them, logs a warning, and falls
through to the explode_zip block, which calls interact(main) again; an
exception of any other kind propagates.  When ZIP_SAFE is true, add the
module directory, append SoImport to sys.meta_path, and call
interact(main) once. -/
def run (env : Env) (s0 : SysState) : List Event × Except PyErr Int :=
  match bootstrap_path_adjust s0 with
  | Except.error e => ([], Except.error e)
  | Except.ok s1 =>
    if env.zipSafe = false then
      match env.fuseResult with
      | Except.ok _ =>
        let evs := [Event.setupFuseOk, Event.interact s1.path s1.meta_path]
        match env.interactResults 0 with
        | Outcome.ret v => (evs, Except.ok v)
        | Outcome.raise (PyErr.osError m) =>
          explodedRun env s1 (evs ++ [Event.fuseWarning (PyErr.osError m)]) 1
        | Outcome.raise (PyErr.otherError m) => (evs, Except.error (PyErr.otherError m))
      | Except.error (PyErr.osError m) =>
        explodedRun env s1 [Event.fuseWarning (PyErr.osError m)] 0
      | Except.error (PyErr.otherError m) => ([], Except.error (PyErr.otherError m))
    else
      match add_module_dir_to_sys_path env.moduleDir s1 with
      | Except.error e => ([], Except.error e)
      | Except.ok s2 =>
        let s3 : SysState := { s2 with meta_path := s2.meta_path ++ [MetaHook.soImport] }
        let evs := [Event.interact s3.path s3.meta_path]
        match env.interactResults 0 with
        | Outcome.ret v => (evs, Except.ok v)
        | Outcome.raise e => (evs, Except.error e)

/-- The states at which the external entry point was invoked, in order. -/
def interactStates (t : List Event) : List (List String × List MetaHook) :=
  t.filterMap (fun e =>
    match e with
    | Event.interact p m => some (p, m)
    | _ => none)

/-- Whether a hook chain holds a ModuleDirImport hook. -/
def isModuleDirHook : MetaHook → Bool
  | MetaHook.moduleDirImport _ => true
  | _ => false

/-- Whether a hook chain holds both hooks with the Import Redirector at a
strictly higher priority, that is an earlier position, than the Variant
Selector. -/
def redirectorAboveSelector (m : List MetaHook) : Bool :=
  match m.findIdx? isModuleDirHook, m.findIdx? (fun h => h == MetaHook.soImport) with
  | some i, some j => decide (i < j)
  | _, _ => false

/-- The property claim C1 asserts of a run: at every invocation of the
external entry point, the hook chain holds the ModuleDirImport hook and
the SoImport hook, the former at higher priority, and the entry point is
invoked at least once. -/
def hooksInstalledBeforeEntry (env : Env) (s : SysState) : Bool :=
  let states := interactStates (run env s).1
  !states.isEmpty && states.all (fun pm => redirectorAboveSelector pm.2)

end PexRun

/-! ### Concrete inputs used by the claim theorems and their witnesses -/

open FindWheels PexRun

/-- An initial interpreter state: the archive root as the single sys.path
entry and one preinstalled finder on sys.meta_path. -/
def bootState0 : SysState :=
  { path := ["/home/user/app.pex"], meta_path := [MetaHook.preexisting "PathFinder"] }

/-- A non-zip-safe archive whose mount succeeds and whose entry point
returns normally: the Mounted execution mode. -/
def envMounted : Env :=
  { zipSafe := false, moduleDir := "third_party/python",
    fuseResult := Except.ok (), interactResults := fun _ => Outcome.ret 0 }

/-- A non-zip-safe archive whose mount fails with an exception that is not
an OSError. -/
def envMountOther : Env :=
  { zipSafe := false, moduleDir := "third_party/python",
    fuseResult := Except.error (PyErr.otherError "fusepy not importable"),
    interactResults := fun _ => Outcome.ret 0 }

/-- A non-zip-safe archive whose mount fails with an OSError. -/
def envMountOsErr : Env :=
  { zipSafe := false, moduleDir := "third_party/python",
    fuseResult := Except.error (PyErr.osError "mount failed"),
    interactResults := fun _ => Outcome.ret 0 }

/-- A non-zip-safe archive whose mount succeeds but whose entry point raises
an OSError on its first invocation and returns 7 on any later one. -/
def envEntryOsErr : Env :=
  { zipSafe := false, moduleDir := "third_party/python", fuseResult := Except.ok (),
    interactResults := fun n =>
      if n = 0 then Outcome.raise (PyErr.osError "entry point failed") else Outcome.ret 7 }

/-- A zip-safe archive: the InPlace execution mode. -/
def envInPlace : Env :=
  { zipSafe := true, moduleDir := "third_party/python", fuseResult := Except.ok (),
    interactResults := fun _ => Outcome.ret 0 }

/-- The literal name dash version dash prefix that find_wheels interpolates
into its pattern for a given spec string. -/
def specNameVer (spec : String) : List Char :=
  String.data ((partition_eqeq spec).1 ++ "-" ++ (partition_eqeq spec).2 ++ "-")

/-- The property claim C8 asserts, written from the words of the spec: the
resolution errors exactly when the fetch fails at transport level or the
response status is not in the 2xx range. -/
def errors_iff_non2xx (osP : String) (fetch : Except String Response) (spec : String) : Prop :=
  (∃ e, find_wheels osP fetch spec = Except.error e) ↔
    ((∃ m, fetch = Except.error m) ∨
     (∃ r, fetch = Except.ok r ∧ ¬(200 ≤ r.status ∧ r.status ≤ 299)))

/-! ### Claim theorems -/

/-- Claim C9 (confirmed): after the bootstrap path adjustment, sys.path has
the archive root entry first, the root joined with .bootstrap immediately
after it, and every remaining original entry unchanged and in its original
order; sys.meta_path is untouched by this step. -/
theorem c9_bootstrap_path_adjust (s : SysState) (p0 : String) (rest : List String)
    (hpath : s.path = p0 :: rest) :
    bootstrap_path_adjust s =
      Except.ok { s with path := p0 :: os_path_join p0 [".bootstrap"] :: rest } := by
  obtain ⟨sp, sm⟩ := s
  dsimp only at hpath
  subst hpath
  rfl

/-- Witness for C9: the adjustment evaluated at a concrete state. -/
theorem c9_bootstrap_path_adjust_witness :
    bootstrap_path_adjust { path := ["/home/user/app.pex"], meta_path := [] } =
      Except.ok { path := ["/home/user/app.pex", "/home/user/app.pex/.bootstrap"],
                  meta_path := ([] : List MetaHook) } := by
  have h := c9_bootstrap_path_adjust
    { path := ["/home/user/app.pex"], meta_path := [] } "/home/user/app.pex" [] rfl
  rw [h]
  rfl

/-- Claim C10 (confirmed): with an empty module directory name,
add_module_dir_to_sys_path changes neither sys.path nor sys.meta_path. -/
theorem c10_empty_module_dir_is_noop (s : SysState) :
    add_module_dir_to_sys_path "" s = Except.ok s := by
  simp [add_module_dir_to_sys_path]

/-- Counterexample for claim C5: on a Linux host with the exact anchor the
claim quotes, whose href is the bare wheel filename, find_wheels yields no
candidate at all, because the compiled pattern demands at least one
character between the opening quote of the href and the package name.  The
claim asserted exactly one candidate. -/
theorem c5_counterexample :
    ¬ ∃ u : String,
      find_wheels "linux"
        (Except.ok ⟨200, "<a href=\"coverage-4.3.4-cp35-cp35m-manylinux1_x86_64.whl#sha256=abc\">"⟩)
        "coverage==4.3.4" = Except.ok [u] := by
  intro h
  obtain ⟨u, hu⟩ := h
  have hok : find_wheels "linux"
      (Except.ok ⟨200, "<a href=\"coverage-4.3.4-cp35-cp35m-manylinux1_x86_64.whl#sha256=abc\">"⟩)
      "coverage==4.3.4" = Except.ok [] := rfl
  rw [hok] at hu
  simp at hu

/-- Claim C5 as amended: the anchor matches once there is at least one
character before the package name inside the href, and the candidate URL
is then the index base joined with the package name and the full matched
href text, leading prefix included. -/
theorem c5_prefixed_anchor_matches :
    find_wheels "linux"
      (Except.ok ⟨200, "<a href=\"./coverage-4.3.4-cp35-cp35m-manylinux1_x86_64.whl#sha256=abc\">"⟩)
      "coverage==4.3.4" =
      Except.ok ["https://pypi.python.org/simple/coverage/./coverage-4.3.4-cp35-cp35m-manylinux1_x86_64.whl"] := rfl

/-- Counterexample for claim C2: the page holds an anchor whose filename has
the package name, a concrete version, an accepted ABI tag, the canonical
linux platform and the architecture marker, as the second conjunct proves
by resolving it under the versioned spec; yet the spec with an empty
version part yields nothing, so an empty version is not treated as a
wildcard over versions. -/
theorem c2_counterexample :
    find_wheels "linux"
        (Except.ok ⟨200, "<a href=\"p/c-1-cp35-cp35m-manylinux1_x86_64.whl#f\">"⟩) "c" =
      Except.ok []
    ∧ find_wheels "linux"
        (Except.ok ⟨200, "<a href=\"p/c-1-cp35-cp35m-manylinux1_x86_64.whl#f\">"⟩) "c==1" =
      Except.ok ["https://pypi.python.org/simple/c/p/c-1-cp35-cp35m-manylinux1_x86_64.whl"] :=
  ⟨rfl, rfl⟩

/-- Claim C2 as amended: an empty version is interpolated literally into the
pattern, so the spec without a version matches only filenames whose
version field is itself empty, that is the package name followed by two
consecutive dashes and an accepted ABI tag; filenames with a concrete
version are not matched. -/
theorem c2_empty_version_is_literal :
    find_wheels "linux"
      (Except.ok ⟨200,
        "<a href=\"p/c--cp35-cp35m-manylinux1_x86_64.whl#f\">\n<a href=\"p/c-1-cp35-cp35m-manylinux1_x86_64.whl#f\">"⟩)
      "c" =
      Except.ok ["https://pypi.python.org/simple/c/p/c--cp35-cp35m-manylinux1_x86_64.whl"] := rfl

/-- Counterexample for claim C6: the very same matching wheel filename is
yielded when its href carries a fragment and not yielded when the fragment
is absent, so the fragment is not optional for a match. -/
theorem c6_counterexample :
    find_wheels "linux"
        (Except.ok ⟨200, "<a href=\"p/c-1-cp35-cp35m-manylinux1_x86_64.whl\">"⟩) "c==1" =
      Except.ok []
    ∧ find_wheels "linux"
        (Except.ok ⟨200, "<a href=\"p/c-1-cp35-cp35m-manylinux1_x86_64.whl#f\">"⟩) "c==1" =
      Except.ok ["https://pypi.python.org/simple/c/p/c-1-cp35-cp35m-manylinux1_x86_64.whl"] :=
  ⟨rfl, rfl⟩

/-- Claim C6 as amended: a matching anchor is yielded only when its href
carries a trailing URL fragment, because the pattern requires a hash sign
right after the whl extension; a bare hash sign with an empty fragment
suffices, and an href with no hash sign at all is not matched. -/
theorem c6_fragment_is_required :
    find_wheels "linux"
        (Except.ok ⟨200, "<a href=\"q/c-1-cp35-cp35m-manylinux1_x86_64.whl#\">"⟩) "c==1" =
      Except.ok ["https://pypi.python.org/simple/c/q/c-1-cp35-cp35m-manylinux1_x86_64.whl"]
    ∧ find_wheels "linux"
        (Except.ok ⟨200, "<a href=\"q/c-1-cp35-cp35m-manylinux1_x86_64.whl\">"⟩) "c==1" =
      Except.ok [] :=
  ⟨rfl, rfl⟩

set_option maxRecDepth 40000 in
/-- Counterexample for claim C7: a page listing the same matching anchor
twice on one line yields only one candidate, while the same two anchors on
separate lines yield two, so the output is not always the full sequence of
matching anchors: the fragment part of a match runs greedily to the last
quote of its line and swallows any later anchor on that line. -/
theorem c7_counterexample :
    find_wheels "linux"
        (Except.ok ⟨200,
          "<a href=\"p/c-1-cp35-cp35m-manylinux1_x86_64.whl#a\"><a href=\"p/c-1-cp35-cp35m-manylinux1_x86_64.whl#b\">"⟩)
        "c==1" =
      Except.ok ["https://pypi.python.org/simple/c/p/c-1-cp35-cp35m-manylinux1_x86_64.whl"]
    ∧ find_wheels "linux"
        (Except.ok ⟨200,
          "<a href=\"p/c-1-cp35-cp35m-manylinux1_x86_64.whl#a\">\n<a href=\"p/c-1-cp35-cp35m-manylinux1_x86_64.whl#b\">"⟩)
        "c==1" =
      Except.ok ["https://pypi.python.org/simple/c/p/c-1-cp35-cp35m-manylinux1_x86_64.whl",
                 "https://pypi.python.org/simple/c/p/c-1-cp35-cp35m-manylinux1_x86_64.whl"] :=
  ⟨rfl, rfl⟩

set_option maxRecDepth 40000 in
/-- Claim C7 as amended: when each matching anchor sits on its own line,
candidates appear in document order and duplicate filenames are kept as
duplicates; here a page listing wheel X, then wheel Y, then wheel X again
on three lines yields exactly those three candidates in that order. -/
theorem c7_document_order_and_duplicates :
    find_wheels "linux"
      (Except.ok ⟨200,
        "<a href=\"a/c-1-cp35-cp35m-manylinux1_x86_64.whl#f\">\n<a href=\"b/c-1-cp36-cp36m-manylinux1_x86_64.whl#f\">\n<a href=\"a/c-1-cp35-cp35m-manylinux1_x86_64.whl#f\">"⟩)
      "c==1" =
      Except.ok ["https://pypi.python.org/simple/c/a/c-1-cp35-cp35m-manylinux1_x86_64.whl",
                 "https://pypi.python.org/simple/c/b/c-1-cp36-cp36m-manylinux1_x86_64.whl",
                 "https://pypi.python.org/simple/c/a/c-1-cp35-cp35m-manylinux1_x86_64.whl"] := rfl

/-- Helper: a transport failure of the GET surfaces as a transport error. -/
theorem find_wheels_transport (osP m spec : String) :
    find_wheels osP (Except.error m) spec = Except.error (FetchError.transport m) := by
  rcases hp : partition_eqeq spec with ⟨n, v⟩
  simp [find_wheels, hp]

/-- Helper: a response whose status is in the 4xx or 5xx range surfaces as
the error raised by raise_for_status. -/
theorem find_wheels_http_error (osP : String) (r : Response) (spec : String)
    (hs : 400 ≤ r.status ∧ r.status < 600) :
    find_wheels osP (Except.ok r) spec = Except.error (FetchError.httpStatus r.status) := by
  rcases hp : partition_eqeq spec with ⟨n, v⟩
  simp [find_wheels, raise_for_status, hs, hp]

/-- Helper: a response whose status is outside the 4xx and 5xx ranges always
yields the mapped scan results and never an error. -/
theorem find_wheels_ok (osP : String) (r : Response) (spec : String)
    (hs : ¬(400 ≤ r.status ∧ r.status < 600)) :
    find_wheels osP (Except.ok r) spec =
      Except.ok ((findall (specNameVer spec) (String.data (PIP_PLATFORMS osP))
          (String.data r.text)).map
        (fun m => os_path_join PIP_URL_BASE [(partition_eqeq spec).1, String.mk m])) := by
  rcases hp : partition_eqeq spec with ⟨n, v⟩
  simp [find_wheels, raise_for_status, hs, hp, specNameVer]

/-- Counterexample for claim C8: a 304 response is not a 2xx success, yet
find_wheels raises nothing and yields the empty result, so it is not true
that every non-2xx response is an error. -/
theorem c8_counterexample : ¬ errors_iff_non2xx "linux" (Except.ok ⟨304, ""⟩) "coverage" := by
  intro h
  unfold errors_iff_non2xx at h
  obtain ⟨e, he⟩ := h.mpr (Or.inr ⟨⟨304, ""⟩, rfl, by decide⟩)
  have hok : find_wheels "linux" (Except.ok ⟨304, ""⟩) "coverage" = Except.ok [] := rfl
  rw [hok] at he
  exact Except.noConfusion he

/-- Claim C8 as amended: find_wheels raises an error exactly when the fetch
fails at transport level or the response status lies in the 4xx or 5xx
ranges, which is what raise_for_status checks; and whenever the fetch
succeeds with any other status and no anchor matches, it yields the empty
sequence and raises no error. -/
theorem c8_error_conditions (osP : String) (fetch : Except String Response) (spec : String) :
    ((∃ e, find_wheels osP fetch spec = Except.error e) ↔
      ((∃ m, fetch = Except.error m) ∨
       (∃ r, fetch = Except.ok r ∧ 400 ≤ r.status ∧ r.status < 600)))
    ∧ (∀ r, fetch = Except.ok r → ¬(400 ≤ r.status ∧ r.status < 600) →
        findall (specNameVer spec) (String.data (PIP_PLATFORMS osP)) (String.data r.text) = [] →
        find_wheels osP fetch spec = Except.ok []) := by
  constructor
  · constructor
    · rintro ⟨e, he⟩
      rcases fetch with m | r
      · exact Or.inl ⟨m, rfl⟩
      · right
        refine ⟨r, rfl, ?_⟩
        by_contra hs
        rw [find_wheels_ok osP r spec hs] at he
        exact Except.noConfusion he
    · rintro (⟨m, hm⟩ | ⟨r, hr, hs⟩)
      · subst hm
        exact ⟨FetchError.transport m, find_wheels_transport osP m spec⟩
      · subst hr
        exact ⟨FetchError.httpStatus r.status, find_wheels_http_error osP r spec hs⟩
  · intro r hr hs hempty
    subst hr
    rw [find_wheels_ok osP r spec hs, hempty]
    rfl

/-- Witness for C8: a 200 response with no anchors yields the empty sequence
without an error. -/
theorem c8_error_conditions_witness :
    find_wheels "linux" (Except.ok ⟨200, "no anchors here"⟩) "coverage==9.9" = Except.ok [] := by
  exact (c8_error_conditions "linux" (Except.ok ⟨200, "no anchors here"⟩) "coverage==9.9").2
    ⟨200, "no anchors here"⟩ rfl (by decide) (by rfl)

/-- Counterexample for claim C1: a non-zip-safe archive whose mount succeeds
runs the external entry point in Mounted mode with no hook installed at
all, neither the Import Redirector nor the Variant Selector, so it is not
true that every execution mode installs both hooks, in priority order,
before the entry point is invoked. -/
theorem c1_counterexample : hooksInstalledBeforeEntry envMounted bootState0 = false := by decide

/-- Claim C1 as amended: only the InPlace mode of a zip-safe archive with a
nonempty module directory installs both hooks before the entry point runs,
the Import Redirector at the front of the chain and so at higher priority
than the Variant Selector appended at the back; in Mounted mode the entry
point is first invoked with the hook chain untouched, and in Exploded mode
only the Import Redirector is installed. -/
theorem c1_hooks_by_mode (env : Env) (s0 : SysState) (p0 : String) (rest : List String)
    (hpath : s0.path = p0 :: rest) (hdir : env.moduleDir ≠ "") :
    (env.zipSafe = true →
      interactStates (run env s0).1 =
        [(p0 :: os_path_join p0 [env.moduleDir] :: os_path_join p0 [".bootstrap"] :: rest,
          MetaHook.moduleDirImport env.moduleDir :: (s0.meta_path ++ [MetaHook.soImport]))])
    ∧ (env.zipSafe = false → env.fuseResult = Except.ok () →
      (interactStates (run env s0).1).head? =
        some (p0 :: os_path_join p0 [".bootstrap"] :: rest, s0.meta_path))
    ∧ (env.zipSafe = false → ∀ m, env.fuseResult = Except.error (PyErr.osError m) →
      interactStates (run env s0).1 =
        [(p0 :: os_path_join p0 [env.moduleDir] :: os_path_join p0 [".bootstrap"] :: rest,
          MetaHook.moduleDirImport env.moduleDir :: s0.meta_path)]) := by
  obtain ⟨sp, sm⟩ := s0
  dsimp only at hpath
  subst hpath
  refine ⟨?_, ?_, ?_⟩
  · intro hz
    rcases h0 : env.interactResults 0 with v | e <;>
      simp [run, bootstrap_path_adjust, add_module_dir_to_sys_path, interactStates,
        hz, hdir, h0]
  · intro hz hf
    rcases h0 : env.interactResults 0 with v | e
    · simp [run, bootstrap_path_adjust, explodedRun, add_module_dir_to_sys_path,
        interactStates, hz, hf, hdir, h0]
    · rcases e with m | m
      · rcases h1 : env.interactResults 1 with v1 | e1 <;>
          simp [run, bootstrap_path_adjust, explodedRun, add_module_dir_to_sys_path,
            interactStates, hz, hf, hdir, h0, h1]
      · simp [run, bootstrap_path_adjust, explodedRun, add_module_dir_to_sys_path,
          interactStates, hz, hf, hdir, h0]
  · intro hz m hf
    rcases h0 : env.interactResults 0 with v | e <;>
      simp [run, bootstrap_path_adjust, explodedRun, add_module_dir_to_sys_path,
        interactStates, hz, hf, hdir, h0]

/-- Witness for C1 as amended: the InPlace conjunct evaluated at a concrete
zip-safe environment and state. -/
theorem c1_hooks_by_mode_witness :
    interactStates (run envInPlace bootState0).1 =
      [(["/home/user/app.pex", "/home/user/app.pex/third_party/python",
         "/home/user/app.pex/.bootstrap"],
        [MetaHook.moduleDirImport "third_party/python", MetaHook.preexisting "PathFinder",
         MetaHook.soImport])] := by
  have h := (c1_hooks_by_mode envInPlace bootState0 "/home/user/app.pex" [] rfl
    (by decide)).1 rfl
  rw [h]
  rfl

/-- Claim C3 concerns a real defect: with a non-zip-safe archive whose mount
succeeds, an OSError raised by the external entry point itself is caught
by the except clause that was meant for setup_fuse, a FUSE warning is
logged for it, the archive is exploded, and the entry point is invoked a
second time, whose result replaces the swallowed error; the claim and the
spec say the error propagates and the entry point never runs twice. -/
theorem c3_entry_point_reinvoked :
    run envEntryOsErr bootState0 =
      ([Event.setupFuseOk,
        Event.interact ["/home/user/app.pex", "/home/user/app.pex/.bootstrap"]
          [MetaHook.preexisting "PathFinder"],
        Event.fuseWarning (PyErr.osError "entry point failed"),
        Event.explodeZip,
        Event.interact ["/home/user/app.pex", "/home/user/app.pex/third_party/python",
            "/home/user/app.pex/.bootstrap"]
          [MetaHook.moduleDirImport "third_party/python", MetaHook.preexisting "PathFinder"]],
       Except.ok 7) := rfl

/-- Counterexample for claim C4: when the mount fails with an exception that
is not an OSError, the except clause does not catch it, the bootstrap
fails without ever invoking the entry point, and no fallback to Exploded
mode happens, so a mount failure is not recovered for every reason. -/
theorem c4_counterexample :
    (run envMountOther bootState0).2 = Except.error (PyErr.otherError "fusepy not importable")
    ∧ interactStates (run envMountOther bootState0).1 = [] := ⟨rfl, rfl⟩

/-- Claim C4 as amended: a mount failure is recovered exactly when it is an
OSError: then the bootstrap explodes the archive and still invokes the
entry point; a mount failure of any other exception class propagates and
the entry point is never invoked. -/
theorem c4_mount_failure_fallback (env : Env) (s0 : SysState) (p0 : String)
    (rest : List String) (m : String) (hpath : s0.path = p0 :: rest)
    (hz : env.zipSafe = false) :
    (env.fuseResult = Except.error (PyErr.osError m) →
      Event.explodeZip ∈ (run env s0).1 ∧ interactStates (run env s0).1 ≠ [])
    ∧ (env.fuseResult = Except.error (PyErr.otherError m) →
      (run env s0).2 = Except.error (PyErr.otherError m)
      ∧ interactStates (run env s0).1 = []) := by
  obtain ⟨sp, sm⟩ := s0
  dsimp only at hpath
  subst hpath
  constructor
  · intro hf
    by_cases hd : env.moduleDir = ""
    · rcases h0 : env.interactResults 0 with v | e <;>
        simp [run, bootstrap_path_adjust, explodedRun, add_module_dir_to_sys_path,
          interactStates, hz, hf, hd, h0]
    · rcases h0 : env.interactResults 0 with v | e <;>
        simp [run, bootstrap_path_adjust, explodedRun, add_module_dir_to_sys_path,
          interactStates, hz, hf, hd, h0]
  · intro hf
    simp [run, bootstrap_path_adjust, interactStates, hz, hf]

/-- Witness for C4 as amended: a concrete OSError mount failure falls back
to Exploded mode and still invokes the entry point. -/
theorem c4_mount_failure_fallback_witness :
    Event.explodeZip ∈ (run envMountOsErr bootState0).1
    ∧ interactStates (run envMountOsErr bootState0).1 ≠ [] := by
  exact (c4_mount_failure_fallback envMountOsErr bootState0 "/home/user/app.pex" []
    "mount failed" rfl rfl).1 rfl
